import Mathlib

/-!
# Review Collection & Normalization core — verification development

Shallow embedding of the tiered review-collection pipeline
(`shopify_review_scraper.py`, `integrate_shopify_scraper.py`,
`integrate_customer_scraper.py`, `customer_site_scraper.py`,
`demographics_foundation_prompt.py`) together with proofs of the
testable properties stated for it.

Modelling conventions:
* Python strings are modelled either as Lean `String` (a structure holding a
  `List Char`) or directly as `List Char` where character-level reasoning is
  needed; `str.lower()` is modelled on the ASCII range, which is the range the
  tier names and review ids use.
* Python floats are modelled as `ℚ` (exact arithmetic); the properties proved
  here are threshold comparisons and means, where the rational model is the
  intended reading.
* Python dicts holding review records are modelled either as type parameters
  (when only their count matters) or as structures exposing the fields the
  code reads; a `.get(key, default)` with a missing key is modelled by a total
  field holding the default.
* Network adapters are modelled by the record lists they return; an adapter
  that errors returns the empty list, exactly as the code's `try/except`
  blocks translate every failure into an empty result.
-/

namespace BildurPersona

/-! ## Tier limits (`ShopifyReviewScraper.TIER_LIMITS` and `__init__`) -/

/-- Model of `TIER_LIMITS.get(key, 20)`: the class-level dict
`{"basic": 20, "premium": 200, "enterprise": 200, "pro": 200}` read with
default `20` (`shopify_review_scraper.py`, lines 43-48 and 69). -/
def tierLimitsGet (key : String) : Nat :=
  if key = "basic" then 20
  else if key = "premium" then 200
  else if key = "enterprise" then 200
  else if key = "pro" then 200
  else 20

/-- ASCII lower-casing of one character, the relevant fragment of Python's
`str.lower()` for the tier names handled by the scraper. -/
def pyLowerChar (c : Char) : Char :=
  if 65 ≤ c.toNat ∧ c.toNat ≤ 90 then Char.ofNat (c.toNat + 32) else c

/-- Model of `tier.lower()` (ASCII model of Python `str.lower()`). -/
def pyLower (s : String) : String :=
  ⟨s.data.map pyLowerChar⟩

/-- Model of `ShopifyReviewScraper.__init__`: `self.max_reviews =
self.TIER_LIMITS.get(tier.lower(), 20)` (`shopify_review_scraper.py`,
lines 68-69). -/
def scraperMaxReviews (tier : String) : Nat :=
  tierLimitsGet (pyLower tier)

/-- C10: constructing the scraper with any tier string yields a defined
per-site limit (20 or 200, never an exception), the tier name only matters
through its lower-casing, and any name whose lower-casing is not one of
`basic`, `premium`, `enterprise`, `pro` falls back to the basic limit 20. -/
theorem tier_name_robustness :
    (∀ tier : String, scraperMaxReviews tier = 20 ∨ scraperMaxReviews tier = 200) ∧
    (∀ t1 t2 : String, pyLower t1 = pyLower t2 →
      scraperMaxReviews t1 = scraperMaxReviews t2) ∧
    (∀ tier : String, pyLower tier ≠ "basic" → pyLower tier ≠ "premium" →
      pyLower tier ≠ "enterprise" → pyLower tier ≠ "pro" →
      scraperMaxReviews tier = 20) := by
  refine ⟨fun tier => ?_, fun t1 t2 h => ?_, fun tier h1 h2 h3 h4 => ?_⟩
  · unfold scraperMaxReviews tierLimitsGet
    split_ifs <;> simp
  · unfold scraperMaxReviews
    rw [h]
  · unfold scraperMaxReviews tierLimitsGet
    split_ifs <;> simp_all

/-- Witness for `tier_name_robustness`: the fallback branch evaluated at the
concrete unknown tier name `"GOLD"`. -/
theorem tier_name_robustness_witness : scraperMaxReviews "GOLD" = 20 :=
  tier_name_robustness.2.2 "GOLD" (by decide) (by decide) (by decide) (by decide)

/-! ## `ShopifyReviewScraper.scrape_shopify_reviews` (lines 73-206)

The four adapters (`_try_judge_me_api`, `_try_shopify_product_api`,
`_try_yotpo_api`, `_scrape_with_selenium`) are modelled by the record lists
they return; every exception inside an adapter is caught by the code and
surfaces as an empty list.  The review payload type is a parameter `α`
(the code passes dicts through unchanged). -/

/-- The fields of the `result` dict built by `scrape_shopify_reviews` that the
collection properties speak about. -/
structure ScrapeResult (α : Type) where
  scrape_method : Option String
  reviews : List α
  total_reviews : Nat
  api_attempts : List String
  tier_limit_applied : Bool
  available_reviews_estimated : Nat
  reviews_found : Bool

/-- Model of `scrape_shopify_reviews`: try Judge.me, then the Shopify product API, then
Yotpo — each gated on `if not result["reviews"]` — then fall back to Selenium;
the winning adapter's list is truncated to `max_reviews` and, when it was
longer than the limit, `tier_limit_applied` / `available_reviews_estimated`
are set (`shopify_review_scraper.py`, lines 92-206). -/
def scrapeShopifyReviews {α : Type} (maxReviews : Nat)
    (judge shopify yotpo selenium : List α) : ScrapeResult α :=
  let r0 : ScrapeResult α :=
    { scrape_method := none, reviews := [], total_reviews := 0,
      api_attempts := [], tier_limit_applied := false,
      available_reviews_estimated := 0, reviews_found := false }
  let r1 :=
    if judge.isEmpty then
      { r0 with api_attempts := r0.api_attempts ++ ["judge.me - failed"] }
    else
      { r0 with
        reviews := r0.reviews ++ judge.take maxReviews,
        api_attempts := r0.api_attempts ++ ["judge.me - success"],
        scrape_method := some "judge.me_api",
        tier_limit_applied :=
          if judge.length > maxReviews then true else r0.tier_limit_applied,
        available_reviews_estimated :=
          if judge.length > maxReviews then judge.length
          else r0.available_reviews_estimated }
  let r2 :=
    if r1.reviews.isEmpty then
      if shopify.isEmpty then
        { r1 with api_attempts := r1.api_attempts ++ ["shopify_products - failed"] }
      else
        { r1 with
          reviews := r1.reviews ++ shopify.take maxReviews,
          api_attempts := r1.api_attempts ++ ["shopify_products - success"],
          scrape_method := some "shopify_product_api",
          tier_limit_applied :=
            if shopify.length > maxReviews then true else r1.tier_limit_applied,
          available_reviews_estimated :=
            if shopify.length > maxReviews then shopify.length
            else r1.available_reviews_estimated }
    else r1
  let r3 :=
    if r2.reviews.isEmpty then
      if yotpo.isEmpty then
        { r2 with api_attempts := r2.api_attempts ++ ["yotpo - failed"] }
      else
        { r2 with
          reviews := r2.reviews ++ yotpo.take maxReviews,
          api_attempts := r2.api_attempts ++ ["yotpo - success"],
          scrape_method := some "yotpo_api",
          tier_limit_applied :=
            if yotpo.length > maxReviews then true else r2.tier_limit_applied,
          available_reviews_estimated :=
            if yotpo.length > maxReviews then yotpo.length
            else r2.available_reviews_estimated }
    else r2
  let r4 :=
    if r3.reviews.isEmpty then
      { r3 with
        reviews := selenium.take maxReviews,
        scrape_method := some "selenium",
        tier_limit_applied :=
          if selenium.length > maxReviews then true else r3.tier_limit_applied,
        available_reviews_estimated :=
          if selenium.length > maxReviews then selenium.length
          else r3.available_reviews_estimated }
    else r3
  { r4 with
    total_reviews := r4.reviews.length,
    reviews_found := decide (r4.reviews.length > 0) }

/-- The number of records the run discovered before the tier cap was applied:
the length of the list returned by the first adapter that yielded at least one
record (Selenium's list when all three APIs yielded nothing). -/
def discoveredReviews {α : Type} (judge shopify yotpo selenium : List α) : Nat :=
  if ¬judge.isEmpty then judge.length
  else if ¬shopify.isEmpty then shopify.length
  else if ¬yotpo.isEmpty then yotpo.length
  else selenium.length

theorem scraperMaxReviews_pos (tier : String) : 0 < scraperMaxReviews tier := by
  unfold scraperMaxReviews tierLimitsGet
  split_ifs <;> omega

theorem take_isEmpty_false {α : Type} (l : List α) (n : Nat)
    (hl : l.isEmpty = false) (hn : 0 < n) : (l.take n).isEmpty = false := by
  cases l with
  | nil => simp at hl
  | cons a t =>
    cases n with
    | zero => omega
    | succ k => simp

/-- When Judge.me yields at least one record, it wins and nothing after it is
attempted. -/
theorem scrape_of_judge {α : Type} {maxReviews : Nat} (hmax : 0 < maxReviews)
    {judge shopify yotpo selenium : List α} (hj : judge.isEmpty = false) :
    scrapeShopifyReviews maxReviews judge shopify yotpo selenium =
      { scrape_method := some "judge.me_api",
        reviews := judge.take maxReviews,
        total_reviews := (judge.take maxReviews).length,
        api_attempts := ["judge.me - success"],
        tier_limit_applied := if judge.length > maxReviews then true else false,
        available_reviews_estimated :=
          if judge.length > maxReviews then judge.length else 0,
        reviews_found := decide ((judge.take maxReviews).length > 0) } := by
  have ht := take_isEmpty_false judge maxReviews hj hmax
  simp [scrapeShopifyReviews, hj, ht]

/-- When Judge.me fails and the Shopify product API yields records, the latter
wins; the Judge.me failure is recorded and Yotpo / Selenium are not attempted. -/
theorem scrape_of_shopify {α : Type} {maxReviews : Nat} (hmax : 0 < maxReviews)
    {judge shopify yotpo selenium : List α} (hj : judge.isEmpty = true)
    (hs : shopify.isEmpty = false) :
    scrapeShopifyReviews maxReviews judge shopify yotpo selenium =
      { scrape_method := some "shopify_product_api",
        reviews := shopify.take maxReviews,
        total_reviews := (shopify.take maxReviews).length,
        api_attempts := ["judge.me - failed", "shopify_products - success"],
        tier_limit_applied := if shopify.length > maxReviews then true else false,
        available_reviews_estimated :=
          if shopify.length > maxReviews then shopify.length else 0,
        reviews_found := decide ((shopify.take maxReviews).length > 0) } := by
  have ht := take_isEmpty_false shopify maxReviews hs hmax
  simp [scrapeShopifyReviews, hj, hs, ht]

/-- When both Judge.me and the Shopify product API fail and Yotpo yields
records, Yotpo wins; both failures are recorded and Selenium is not attempted. -/
theorem scrape_of_yotpo {α : Type} {maxReviews : Nat} (hmax : 0 < maxReviews)
    {judge shopify yotpo selenium : List α} (hj : judge.isEmpty = true)
    (hs : shopify.isEmpty = true) (hy : yotpo.isEmpty = false) :
    scrapeShopifyReviews maxReviews judge shopify yotpo selenium =
      { scrape_method := some "yotpo_api",
        reviews := yotpo.take maxReviews,
        total_reviews := (yotpo.take maxReviews).length,
        api_attempts := ["judge.me - failed", "shopify_products - failed",
          "yotpo - success"],
        tier_limit_applied := if yotpo.length > maxReviews then true else false,
        available_reviews_estimated :=
          if yotpo.length > maxReviews then yotpo.length else 0,
        reviews_found := decide ((yotpo.take maxReviews).length > 0) } := by
  have ht := take_isEmpty_false yotpo maxReviews hy hmax
  simp [scrapeShopifyReviews, hj, hs, hy, ht]

/-- When every API adapter fails, the run falls back to Selenium with all
three failures recorded, and still returns a result. -/
theorem scrape_of_selenium {α : Type} {maxReviews : Nat}
    {judge shopify yotpo selenium : List α} (hj : judge.isEmpty = true)
    (hs : shopify.isEmpty = true) (hy : yotpo.isEmpty = true) :
    scrapeShopifyReviews maxReviews judge shopify yotpo selenium =
      { scrape_method := some "selenium",
        reviews := selenium.take maxReviews,
        total_reviews := (selenium.take maxReviews).length,
        api_attempts := ["judge.me - failed", "shopify_products - failed",
          "yotpo - failed"],
        tier_limit_applied := if selenium.length > maxReviews then true else false,
        available_reviews_estimated :=
          if selenium.length > maxReviews then selenium.length else 0,
        reviews_found := decide ((selenium.take maxReviews).length > 0) } := by
  simp [scrapeShopifyReviews, hj, hs, hy]

/-- Core quota lemma, for any positive per-site limit. -/
theorem scrape_quota {α : Type} (maxReviews : Nat) (hmax : 0 < maxReviews)
    (judge shopify yotpo selenium : List α) :
    (scrapeShopifyReviews maxReviews judge shopify yotpo selenium).total_reviews
        ≤ maxReviews ∧
      ((scrapeShopifyReviews maxReviews judge shopify yotpo selenium).tier_limit_applied
          = true ↔
        discoveredReviews judge shopify yotpo selenium > maxReviews) := by
  rcases hj : judge.isEmpty with _ | _
  · rw [scrape_of_judge hmax hj]
    constructor
    · simp [Nat.min_le_left]
    · unfold discoveredReviews
      simp [hj]
  · rcases hs : shopify.isEmpty with _ | _
    · rw [scrape_of_shopify hmax hj hs]
      constructor
      · simp [Nat.min_le_left]
      · unfold discoveredReviews
        simp [hj, hs]
    · rcases hy : yotpo.isEmpty with _ | _
      · rw [scrape_of_yotpo hmax hj hs hy]
        constructor
        · simp [Nat.min_le_left]
        · unfold discoveredReviews
          simp [hj, hs, hy]
      · rw [scrape_of_selenium hj hs hy]
        constructor
        · simp [Nat.min_le_left]
        · unfold discoveredReviews
          simp [hj, hs, hy]

/-- C1: for every collection run with active tier `T` (limit 20 for basic;
200 for premium, enterprise and pro) and discovered-before-cap count `D`, the
returned `total_reviews` is at most `TIER_LIMIT[T]`, and `tier_limit_applied`
is true if and only if `D > TIER_LIMIT[T]`. -/
theorem quota_invariant {α : Type} (tier : String)
    (judge shopify yotpo selenium : List α) :
    scraperMaxReviews "basic" = 20 ∧ scraperMaxReviews "premium" = 200 ∧
    scraperMaxReviews "enterprise" = 200 ∧ scraperMaxReviews "pro" = 200 ∧
    (scrapeShopifyReviews (scraperMaxReviews tier)
        judge shopify yotpo selenium).total_reviews ≤ scraperMaxReviews tier ∧
    ((scrapeShopifyReviews (scraperMaxReviews tier)
        judge shopify yotpo selenium).tier_limit_applied = true ↔
      discoveredReviews judge shopify yotpo selenium > scraperMaxReviews tier) :=
  ⟨by decide, by decide, by decide, by decide,
    (scrape_quota _ (scraperMaxReviews_pos tier) judge shopify yotpo selenium).1,
    (scrape_quota _ (scraperMaxReviews_pos tier) judge shopify yotpo selenium).2⟩

/-- C9: adapter fallthrough.  In the fixed priority order Judge.me, Shopify
product API, Yotpo, Selenium: whenever every adapter before some adapter
yields zero records (which is also how errors surface) and that adapter yields
records, the run does not abort — each earlier failure is recorded in
`api_attempts`, `scrape_method` names the first adapter that returned at least
one record, its records (capped to the tier limit) are the result, and no
adapter after the winner contributes an attempt entry. -/
theorem adapter_fallthrough {α : Type} (maxReviews : Nat) (hmax : 0 < maxReviews)
    (judge shopify yotpo selenium : List α) :
    (judge.isEmpty = false →
      (scrapeShopifyReviews maxReviews judge shopify yotpo selenium).scrape_method
          = some "judge.me_api" ∧
        (scrapeShopifyReviews maxReviews judge shopify yotpo selenium).api_attempts
          = ["judge.me - success"] ∧
        (scrapeShopifyReviews maxReviews judge shopify yotpo selenium).reviews
          = judge.take maxReviews) ∧
    (judge.isEmpty = true → shopify.isEmpty = false →
      (scrapeShopifyReviews maxReviews judge shopify yotpo selenium).scrape_method
          = some "shopify_product_api" ∧
        (scrapeShopifyReviews maxReviews judge shopify yotpo selenium).api_attempts
          = ["judge.me - failed", "shopify_products - success"] ∧
        (scrapeShopifyReviews maxReviews judge shopify yotpo selenium).reviews
          = shopify.take maxReviews) ∧
    (judge.isEmpty = true → shopify.isEmpty = true → yotpo.isEmpty = false →
      (scrapeShopifyReviews maxReviews judge shopify yotpo selenium).scrape_method
          = some "yotpo_api" ∧
        (scrapeShopifyReviews maxReviews judge shopify yotpo selenium).api_attempts
          = ["judge.me - failed", "shopify_products - failed", "yotpo - success"] ∧
        (scrapeShopifyReviews maxReviews judge shopify yotpo selenium).reviews
          = yotpo.take maxReviews) ∧
    (judge.isEmpty = true → shopify.isEmpty = true → yotpo.isEmpty = true →
      (scrapeShopifyReviews maxReviews judge shopify yotpo selenium).scrape_method
          = some "selenium" ∧
        (scrapeShopifyReviews maxReviews judge shopify yotpo selenium).api_attempts
          = ["judge.me - failed", "shopify_products - failed", "yotpo - failed"] ∧
        (scrapeShopifyReviews maxReviews judge shopify yotpo selenium).reviews
          = selenium.take maxReviews) := by
  refine ⟨fun hj => ?_, fun hj hs => ?_, fun hj hs hy => ?_, fun hj hs hy => ?_⟩
  · rw [scrape_of_judge hmax hj]
    exact ⟨rfl, rfl, rfl⟩
  · rw [scrape_of_shopify hmax hj hs]
    exact ⟨rfl, rfl, rfl⟩
  · rw [scrape_of_yotpo hmax hj hs hy]
    exact ⟨rfl, rfl, rfl⟩
  · rw [scrape_of_selenium hj hs hy]
    exact ⟨rfl, rfl, rfl⟩

/-- Witness for `adapter_fallthrough`: Judge.me empty (failed), the Shopify
product API returning two records, at the basic limit 20. -/
theorem adapter_fallthrough_witness :
    (scrapeShopifyReviews 20 ([] : List Nat) [7, 8] [] []).scrape_method
        = some "shopify_product_api" ∧
      (scrapeShopifyReviews 20 ([] : List Nat) [7, 8] [] []).api_attempts
        = ["judge.me - failed", "shopify_products - success"] ∧
      (scrapeShopifyReviews 20 ([] : List Nat) [7, 8] [] []).reviews = [7, 8] :=
  (adapter_fallthrough 20 (by decide) [] [7, 8] [] []).2.1 rfl rfl

/-! ## Review ids (`f"R{self.review_counter:03d}"` and `f"C{i}-{review_id}"`)

`scrape_customer_and_competitors` (`shopify_review_scraper.py`, lines 208-312)
resets `self.review_counter` to 1 for the customer store and again for each
competitor store; every collected review gets the id `R` followed by the
counter zero-padded to (at least) three decimal digits.
`convert_multi_store_to_foundation_format`
(`integrate_shopify_scraper.py`, lines 199-253) keeps customer ids unchanged
and turns competitor `i`'s id `rid` into `C{i}-{rid}`.  Ids are modelled as
`List Char` so the decimal formatting can be reasoned about directly. -/

/-- One decimal digit rendered as a character (the digits Python's `%d`
formatting emits; digits are always `< 10`). -/
def digitChar (d : Nat) : Char :=
  match d with
  | 0 => '0' | 1 => '1' | 2 => '2' | 3 => '3' | 4 => '4'
  | 5 => '5' | 6 => '6' | 7 => '7' | 8 => '8' | _ => '9'

/-- Model of `str(n)` for a natural number: its decimal digits, most significant
first (`Nat.digits` is least-significant-first, hence the reverse). -/
def natChars (n : Nat) : List Char :=
  ((Nat.digits 10 n).map digitChar).reverse

/-- Model of `f"{n:03d}"`: `str(n)` left-padded with `'0'` to at least three
characters. -/
def pad3 (n : Nat) : List Char :=
  List.replicate (3 - (natChars n).length) '0' ++ natChars n

/-- Model of `f"R{counter:03d}"`: the per-store review id. -/
def reviewId (counter : Nat) : List Char :=
  'R' :: pad3 counter

/-- Model of `f"C{i}-{review['review_id']}"`: the id of competitor `i`'s review in the
merged foundation report. -/
def competitorReviewId (i counter : Nat) : List Char :=
  'C' :: (natChars i ++ '-' :: reviewId counter)

/-- Competitor blocks in merged order: `enumerate(competitor_data_list, 1)`
tags the `i`-th competitor's reviews with `C{i}-`; each block carries the
counter values its store's scrape assigned. -/
def competitorIdsFrom : Nat → List (List Nat) → List (List Char)
  | _, [] => []
  | i, counters :: rest =>
      counters.map (competitorReviewId i) ++ competitorIdsFrom (i + 1) rest

/-- All `review_id`s of the merged `reviews` list of one foundation report:
customer ids first, then the tagged competitor ids
(`integrate_shopify_scraper.py`, line 253: `customer_reviews +
competitor_reviews`). -/
def mergedReviewIds (customerCounters : List Nat)
    (competitorCounters : List (List Nat)) : List (List Char) :=
  customerCounters.map reviewId ++ competitorIdsFrom 1 competitorCounters

theorem digitChar_inj {d1 d2 : Nat} (h1 : d1 < 10) (h2 : d2 < 10)
    (h : digitChar d1 = digitChar d2) : d1 = d2 := by
  interval_cases d1 <;> interval_cases d2 <;> revert h <;> decide

theorem digitChar_ne_dash {d : Nat} (h : d < 10) : digitChar d ≠ '-' := by
  interval_cases d <;> decide

theorem digitChar_eq_zero {d : Nat} (h : d < 10) :
    digitChar d = '0' ↔ d = 0 := by
  interval_cases d <;> decide

theorem map_digitChar_inj : ∀ {l1 l2 : List Nat},
    (∀ d ∈ l1, d < 10) → (∀ d ∈ l2, d < 10) →
    l1.map digitChar = l2.map digitChar → l1 = l2 := by
  intro l1
  induction l1 with
  | nil =>
    intro l2 _ _ h
    cases l2 <;> simp_all
  | cons a t ih =>
    intro l2 h1 h2 h
    cases l2 with
    | nil => simp_all
    | cons b t2 =>
      simp only [List.map_cons, List.cons.injEq] at h
      have ha : a = b :=
        digitChar_inj (h1 a (by simp)) (h2 b (by simp)) h.1
      have ht : t = t2 :=
        ih (fun d hd => h1 d (by simp [hd])) (fun d hd => h2 d (by simp [hd])) h.2
      rw [ha, ht]

theorem natChars_injective : Function.Injective natChars := by
  intro m n h
  have h2 : (Nat.digits 10 m).map digitChar = (Nat.digits 10 n).map digitChar := by
    have := congrArg List.reverse h
    simpa [natChars] using this
  have h3 : Nat.digits 10 m = Nat.digits 10 n :=
    map_digitChar_inj (fun d hd => Nat.digits_lt_base (by norm_num) hd)
      (fun d hd => Nat.digits_lt_base (by norm_num) hd) h2
  exact Nat.digits.injective 10 h3

theorem natChars_no_dash (n : Nat) : '-' ∉ natChars n := by
  intro h
  simp only [natChars, List.mem_reverse, List.mem_map] at h
  obtain ⟨d, hd, hdc⟩ := h
  exact digitChar_ne_dash (Nat.digits_lt_base (by norm_num) hd) hdc

theorem natChars_head_ne_zero (n : Nat) (hn : n ≠ 0) :
    ∀ c, (natChars n).head? = some c → c ≠ '0' := by
  intro c hc
  have hnil : Nat.digits 10 n ≠ [] := Nat.digits_ne_nil_iff_ne_zero.mpr hn
  rcases List.eq_nil_or_concat (Nat.digits 10 n) with h | ⟨l, d, h⟩
  · exact absurd h hnil
  · rw [List.concat_eq_append] at h
    have hd10 : d < 10 :=
      Nat.digits_lt_base (by norm_num) (by rw [h]; simp)
    have hdlast : d ≠ 0 := by
      have hlast := Nat.getLast_digit_ne_zero 10 hn
      have hsome : (Nat.digits 10 n).getLast? = some d := by
        rw [h]
        exact List.getLast?_concat l
      rw [List.getLast?_eq_getLast _ hnil] at hsome
      have : d = (Nat.digits 10 n).getLast hnil := by
        injection hsome.symm
      rw [this]
      exact hlast
    have hhead : (natChars n).head? = some (digitChar d) := by
      simp [natChars, h]
    rw [hhead] at hc
    have hcd : c = digitChar d := by
      injection hc.symm
    rw [hcd]
    intro hzero
    exact hdlast ((digitChar_eq_zero hd10).mp hzero)

theorem dropWhile_zero_pad (k : Nat) (l : List Char)
    (hl : ∀ c, l.head? = some c → c ≠ '0') :
    (List.replicate k '0' ++ l).dropWhile (fun c => c == '0') = l := by
  induction k with
  | zero =>
    cases l with
    | nil => rfl
    | cons c t =>
      have hc : (c == '0') = false := by
        simpa using hl c rfl
      simp [List.dropWhile_cons, hc]
  | succ k ih =>
    simp [List.replicate_succ, List.dropWhile, ih]

theorem pad3_injective : Function.Injective pad3 := by
  intro m n h
  apply natChars_injective
  have hm := dropWhile_zero_pad (3 - (natChars m).length) (natChars m) ?_
  · have hn := dropWhile_zero_pad (3 - (natChars n).length) (natChars n) ?_
    · rw [← hm, ← hn]
      unfold pad3 at h
      rw [h]
    · by_cases hzero : n = 0
      · subst hzero
        intro c hc
        simp [natChars] at hc
      · exact natChars_head_ne_zero n hzero
  · by_cases hzero : m = 0
    · subst hzero
      intro c hc
      simp [natChars] at hc
    · exact natChars_head_ne_zero m hzero

theorem reviewId_injective : Function.Injective reviewId := by
  intro m n h
  simp only [reviewId, List.cons.injEq] at h
  exact pad3_injective h.2

/-- Splitting at the first `'-'`: if neither left part contains `'-'`, equal
concatenations split identically. -/
theorem append_dash_inj : ∀ {l1 l2 r1 r2 : List Char}, '-' ∉ l1 → '-' ∉ l2 →
    l1 ++ '-' :: r1 = l2 ++ '-' :: r2 → l1 = l2 ∧ r1 = r2 := by
  intro l1
  induction l1 with
  | nil =>
    intro l2 r1 r2 _ h2 h
    cases l2 with
    | nil => simpa using h
    | cons b t2 =>
      simp only [List.nil_append, List.cons_append, List.cons.injEq] at h
      exact absurd (by simp [← h.1]) h2
  | cons a t ih =>
    intro l2 r1 r2 h1 h2 h
    cases l2 with
    | nil =>
      simp only [List.cons_append, List.nil_append, List.cons.injEq] at h
      exact absurd (by simp [h.1]) h1
    | cons b t2 =>
      simp only [List.cons_append, List.cons.injEq] at h
      have := ih (fun hm => h1 (by simp [hm])) (fun hm => h2 (by simp [hm])) h.2
      exact ⟨by rw [h.1, this.1], this.2⟩

theorem competitorReviewId_inj {i c j d : Nat}
    (h : competitorReviewId i c = competitorReviewId j d) : i = j ∧ c = d := by
  simp only [competitorReviewId, List.cons.injEq, true_and] at h
  have := append_dash_inj (natChars_no_dash i) (natChars_no_dash j) h
  exact ⟨natChars_injective this.1, reviewId_injective this.2⟩

theorem reviewId_ne_competitorReviewId (c i d : Nat) :
    reviewId c ≠ competitorReviewId i d := by
  intro h
  simp only [reviewId, competitorReviewId, List.cons.injEq] at h
  exact absurd h.1 (by decide)

theorem mem_competitorIdsFrom {x : List Char} :
    ∀ {i : Nat} {comps : List (List Nat)}, x ∈ competitorIdsFrom i comps →
      ∃ j c, i ≤ j ∧ x = competitorReviewId j c := by
  intro i comps
  induction comps generalizing i with
  | nil => simp [competitorIdsFrom]
  | cons counters rest ih =>
    intro hx
    simp only [competitorIdsFrom, List.mem_append, List.mem_map] at hx
    rcases hx with ⟨c, _, hc⟩ | hx
    · exact ⟨i, c, le_refl i, hc.symm⟩
    · obtain ⟨j, c, hij, hx⟩ := ih hx
      exact ⟨j, c, by omega, hx⟩

theorem competitorIdsFrom_nodup :
    ∀ (i : Nat) (comps : List (List Nat)),
      (∀ counters ∈ comps, counters.Nodup) →
      (competitorIdsFrom i comps).Nodup := by
  intro i comps
  induction comps generalizing i with
  | nil => simp [competitorIdsFrom]
  | cons counters rest ih =>
    intro h
    simp only [competitorIdsFrom]
    refine List.Nodup.append ?_ (ih (i + 1) ?_) ?_
    · refine List.Nodup.map ?_ (h counters (by simp))
      intro c d hcd
      exact (competitorReviewId_inj hcd).2
    · intro cs hcs
      exact h cs (by simp [hcs])
    · intro x hx1 hx2
      obtain ⟨c, _, hc⟩ := List.mem_map.mp hx1
      obtain ⟨j, d, hij, hj⟩ := mem_competitorIdsFrom hx2
      rw [← hc] at hj
      have := (competitorReviewId_inj hj).1
      omega

/-- C2: in every merged foundation report (one customer sub-source whose
review counter restarts at 1, plus K competitor sub-sources tagged `C1-`,
`C2-`, ... whose counters also restart), all `review_id` values are pairwise
distinct, provided each store's counter values are distinct among themselves
(the counter is strictly increasing within one store's scrape). -/
theorem id_uniqueness (customerCounters : List Nat)
    (competitorCounters : List (List Nat))
    (hcust : customerCounters.Nodup)
    (hcomp : ∀ counters ∈ competitorCounters, counters.Nodup) :
    (mergedReviewIds customerCounters competitorCounters).Nodup := by
  unfold mergedReviewIds
  refine List.Nodup.append ?_ (competitorIdsFrom_nodup 1 _ hcomp) ?_
  · exact List.Nodup.map reviewId_injective hcust
  · intro x hx1 hx2
    obtain ⟨c, _, hc⟩ := List.mem_map.mp hx1
    obtain ⟨j, d, _, hj⟩ := mem_competitorIdsFrom hx2
    rw [← hc] at hj
    exact reviewId_ne_competitorReviewId c j d hj

/-- Witness for `id_uniqueness`: a customer store with three reviews and two
competitor stores with two reviews and one review respectively. -/
theorem id_uniqueness_witness :
    (mergedReviewIds [1, 2, 3] [[1, 2], [1]]).Nodup :=
  id_uniqueness [1, 2, 3] [[1, 2], [1]] (by decide)
    (by intro counters h; fin_cases h <;> decide)

/-! ## Deduplicator (`CustomerSiteScraper._deduplicate_reviews`, lines 456-470)

The key is `review.get("text", "").strip().lower()[:100]`; a `seen_texts` set
accumulates the keys of the survivors and later records with an already-seen
key are dropped.  Review records are a type parameter `α` with a `textOf`
accessor (the code reads exactly one field of the dict); text is `List Char`. -/

/-- The characters Python's `str.strip()` removes (ASCII whitespace). -/
def isPySpace (c : Char) : Bool :=
  c == ' ' || c == '\t' || c == '\n' || c == '\r' ||
    c == '\x0b' || c == '\x0c'

/-- Model of `text.strip()`: drop leading and trailing whitespace. -/
def pyStrip (l : List Char) : List Char :=
  ((l.dropWhile isPySpace).reverse.dropWhile isPySpace).reverse

/-- Model of `text.strip().lower()[:100]`: the deduplication key
(`customer_site_scraper.py`, lines 462-464). -/
def dedupKey (text : List Char) : List Char :=
  ((pyStrip text).map pyLowerChar).take 100

/-- The loop of `_deduplicate_reviews`, with the `seen_texts` set carried
explicitly (modelled as a list read up to membership). -/
def dedupGo {α : Type} (textOf : α → List Char) (seen : List (List Char)) :
    List α → List α
  | [] => []
  | r :: rs =>
    if dedupKey (textOf r) ∈ seen then dedupGo textOf seen rs
    else r :: dedupGo textOf (dedupKey (textOf r) :: seen) rs

/-- Model of `_deduplicate_reviews(reviews)`. -/
def deduplicateReviews {α : Type} (textOf : α → List Char)
    (reviews : List α) : List α :=
  dedupGo textOf [] reviews

/-- Modelled from the spec's deduplication policy (§4.2): keep a record
exactly when its key differs from the key of every earlier record, in
discovery order.  `prevKeys` accumulates the keys of ALL records already
scanned (survivors or not), which is how "first occurrence" reads in the
spec; the code instead accumulates only survivor keys. -/
def specFirstOccurrencesGo {α : Type} (textOf : α → List Char)
    (prevKeys : List (List Char)) : List α → List α
  | [] => []
  | r :: rs =>
    if dedupKey (textOf r) ∈ prevKeys then
      specFirstOccurrencesGo textOf (dedupKey (textOf r) :: prevKeys) rs
    else r :: specFirstOccurrencesGo textOf (dedupKey (textOf r) :: prevKeys) rs

/-- Modelled from the spec: the subsequence of first occurrences of each key. -/
def specFirstOccurrences {α : Type} (textOf : α → List Char)
    (reviews : List α) : List α :=
  specFirstOccurrencesGo textOf [] reviews

theorem dedupGo_congr_seen {α : Type} (textOf : α → List Char) :
    ∀ (l : List α) (seen seen' : List (List Char)),
      (∀ k, k ∈ seen ↔ k ∈ seen') →
      dedupGo textOf seen l = specFirstOccurrencesGo textOf seen' l := by
  intro l
  induction l with
  | nil => intro seen seen' _; rfl
  | cons r rs ih =>
    intro seen seen' hss
    simp only [dedupGo, specFirstOccurrencesGo]
    by_cases hk : dedupKey (textOf r) ∈ seen
    · rw [if_pos hk, if_pos ((hss _).mp hk)]
      refine ih seen _ fun k => ?_
      constructor
      · intro hks
        simp [(hss k).mp hks]
      · intro hks
        rcases List.mem_cons.mp hks with hke | hks
        · exact hke ▸ hk
        · exact (hss k).mpr hks
    · rw [if_neg hk, if_neg (fun hx => hk ((hss _).mpr hx))]
      refine congrArg _ (ih _ _ fun k => ?_)
      simp only [List.mem_cons]
      exact or_congr Iff.rfl (hss k)

theorem dedupGo_sublist {α : Type} (textOf : α → List Char) :
    ∀ (l : List α) (seen : List (List Char)),
      (dedupGo textOf seen l).Sublist l := by
  intro l
  induction l with
  | nil => intro seen; simp [dedupGo]
  | cons r rs ih =>
    intro seen
    simp only [dedupGo]
    split_ifs
    · exact (ih seen).cons r
    · exact (ih _).cons₂ r

/-- C3: the deduplicator keeps exactly the first occurrence of each key — the
key being the first 100 characters of the lower-cased, stripped review text
(records shorter than 100 characters compare on their full text, since `take`
is the identity there) — and survivors keep their discovery order (the output
is a sublist of the input). -/
theorem dedup_first_occurrence {α : Type} (textOf : α → List Char)
    (reviews : List α) :
    deduplicateReviews textOf reviews = specFirstOccurrences textOf reviews ∧
      (deduplicateReviews textOf reviews).Sublist reviews :=
  ⟨dedupGo_congr_seen textOf reviews [] [] (fun _ => Iff.rfl),
    dedupGo_sublist textOf reviews []⟩

theorem dedupGo_keys_fresh {α : Type} (textOf : α → List Char) :
    ∀ (l : List α) (seen : List (List Char)),
      ((dedupGo textOf seen l).map (fun r => dedupKey (textOf r))).Nodup ∧
        ∀ r ∈ dedupGo textOf seen l, dedupKey (textOf r) ∉ seen := by
  intro l
  induction l with
  | nil => intro seen; simp [dedupGo]
  | cons r rs ih =>
    intro seen
    simp only [dedupGo]
    split_ifs with hk
    · exact ih seen
    · obtain ⟨hnd, hfresh⟩ := ih (dedupKey (textOf r) :: seen)
      refine ⟨?_, ?_⟩
      · simp only [List.map_cons, List.nodup_cons]
        refine ⟨?_, hnd⟩
        intro hmem
        obtain ⟨s, hs, hks⟩ := List.mem_map.mp hmem
        exact hfresh s hs (by simp [hks])
      · intro s hs
        rcases List.mem_cons.mp hs with hse | hs
        · rw [hse]; exact hk
        · intro hmem
          exact hfresh s hs (by simp [hmem])

theorem dedupGo_eq_self {α : Type} (textOf : α → List Char) :
    ∀ (l : List α) (seen : List (List Char)),
      ((l.map (fun r => dedupKey (textOf r))).Nodup) →
      (∀ r ∈ l, dedupKey (textOf r) ∉ seen) →
      dedupGo textOf seen l = l := by
  intro l
  induction l with
  | nil => intro seen _ _; rfl
  | cons r rs ih =>
    intro seen hnd hfresh
    simp only [List.map_cons, List.nodup_cons] at hnd
    simp only [dedupGo, if_neg (hfresh r (by simp))]
    refine congrArg _ (ih _ hnd.2 ?_)
    intro s hs
    simp only [List.mem_cons]
    rintro (hks | hks)
    · exact hnd.1 (hks ▸ List.mem_map_of_mem (fun t => dedupKey (textOf t)) hs)
    · exact hfresh s (by simp [hs]) hks

/-- C4: the deduplicator is idempotent — applied to its own output it returns
that output unchanged. -/
theorem dedup_idempotent {α : Type} (textOf : α → List Char)
    (reviews : List α) :
    deduplicateReviews textOf (deduplicateReviews textOf reviews) =
      deduplicateReviews textOf reviews :=
  dedupGo_eq_self textOf _ []
    (dedupGo_keys_fresh textOf reviews []).1 (by simp)

/-! ## Quality assessor (`DemographicsFoundationPrompt.validate_data_quality`,
`demographics_foundation_prompt.py`, lines 242-337)

The `ReviewData` dataclass is modelled with the fields the validator reads;
each `IntegratedDataSource` is represented by its `reviews` list (the only
field the validator touches for counting). -/

/-- The slice of the `ReviewData` dataclass that `validate_data_quality`
reads. -/
structure ReviewData (α : Type) where
  amazon_reviews : List α
  competitor_reviews : List α
  target_keywords : List String
  amazon_url : String
  primary_website : String
  customer_url_data : Option (List α)
  customer_amazon_data : Option (List α)
  competitor_data : List (List α)
  youtube_data : Option (List α)
  reddit_data : Option (List α)

/-- The slice of the `DataQualityReport` dataclass the warning property
speaks about. -/
structure DataQualityReport where
  total_reviews : Nat
  has_minimum_reviews : Bool
  missing_sources : List String
  warnings : List String

/-- Constant `self.minimum_reviews = 20` (line 231). -/
def minimumReviews : Nat := 20

/-- The minimum-sample warning emitted at line 269 (it interpolates the
current total). -/
def minSampleWarning (total : Nat) : String :=
  "WARNING: Sample size below recommended minimum (20 reviews). " ++
    "Insights should be considered preliminary. Current: " ++
    toString total ++ " reviews."

/-- Line 274. -/
def amazonWarning : String :=
  "DATA LIMITATION: Amazon reviews not available for analysis."

/-- Line 278. -/
def competitorWarning : String :=
  "DATA LIMITATION: Competitor reviews not available for analysis."

/-- Model of `validate_data_quality` (lines 242-337), restricted to the fields the
minimum-review property concerns; Python truthiness of lists/options/strings
is emptiness/presence. -/
def validateDataQuality {α : Type} (d : ReviewData α) : DataQualityReport :=
  let total := d.amazon_reviews.length + d.competitor_reviews.length
      + (match d.customer_url_data with | some rs => rs.length | none => 0)
      + (match d.customer_amazon_data with | some rs => rs.length | none => 0)
      + (match d.youtube_data with | some rs => rs.length | none => 0)
      + (match d.reddit_data with | some rs => rs.length | none => 0)
      + (d.competitor_data.map List.length).sum
  let hasMin := decide (total ≥ minimumReviews)
  let amazonMissing := d.amazon_reviews.isEmpty && d.customer_amazon_data.isNone
  let competitorMissing := d.competitor_reviews.isEmpty && d.competitor_data.isEmpty
  let warnings :=
    (if total ≥ minimumReviews then [] else [minSampleWarning total])
      ++ (if amazonMissing then [amazonWarning] else [])
      ++ (if competitorMissing then [competitorWarning] else [])
  let missing :=
    (if amazonMissing then ["Amazon reviews"] else [])
      ++ (if competitorMissing then ["Competitor reviews"] else [])
      ++ (if d.youtube_data.isNone then ["YouTube comments"] else [])
      ++ (if d.reddit_data.isNone then ["Reddit discussions"] else [])
      ++ (if d.target_keywords.isEmpty then ["Target keywords"] else [])
      ++ (if d.amazon_url.isEmpty then ["Amazon product URL"] else [])
      ++ (if d.primary_website.isEmpty then ["Primary website"] else [])
  { total_reviews := total, has_minimum_reviews := hasMin,
    missing_sources := missing, warnings := warnings }

theorem minSampleWarning_ne_amazon (n : Nat) :
    minSampleWarning n ≠ amazonWarning := by
  intro h
  have h2 : (minSampleWarning n).data.headD ' ' = amazonWarning.data.headD ' ' := by
    rw [h]
  have h3 : (minSampleWarning n).data.headD ' ' = 'W' := rfl
  have h4 : amazonWarning.data.headD ' ' = 'D' := rfl
  rw [h3, h4] at h2
  exact absurd h2 (by decide)

theorem minSampleWarning_ne_competitor (n : Nat) :
    minSampleWarning n ≠ competitorWarning := by
  intro h
  have h2 : (minSampleWarning n).data.headD ' ' = competitorWarning.data.headD ' ' := by
    rw [h]
  have h3 : (minSampleWarning n).data.headD ' ' = 'W' := rfl
  have h4 : competitorWarning.data.headD ' ' = 'D' := rfl
  rw [h3, h4] at h2
  exact absurd h2 (by decide)

/-- C5: `has_minimum_reviews` is true iff `total_reviews >= 20` (a fixed
constant), and the minimum-sample warning is in the warnings list iff
`total_reviews < 20`. -/
theorem minimum_review_warning {α : Type} (d : ReviewData α) :
    ((validateDataQuality d).has_minimum_reviews = true ↔
      (validateDataQuality d).total_reviews ≥ 20) ∧
    (minSampleWarning (validateDataQuality d).total_reviews ∈
        (validateDataQuality d).warnings ↔
      (validateDataQuality d).total_reviews < 20) := by
  constructor
  · simp [validateDataQuality, minimumReviews]
  · simp only [validateDataQuality, minimumReviews]
    by_cases ht : (validateDataQuality d).total_reviews ≥ 20
    · simp only [validateDataQuality, minimumReviews] at ht
      rw [if_pos ht]
      simp only [List.nil_append, List.mem_append]
      constructor
      · rintro (hmem | hmem) <;> (try split_ifs at hmem) <;> simp_all
        · exact absurd hmem (minSampleWarning_ne_amazon _)
        · exact absurd hmem (minSampleWarning_ne_competitor _)
      · omega
    · simp only [validateDataQuality, minimumReviews] at ht
      rw [if_neg ht]
      simp only [List.cons_append, List.nil_append, List.mem_cons]
      constructor
      · intro _
        omega
      · intro _
        left
        trivial

/-! ## Confidence levels

Three distinct cascades in the source:
* `ShopifyIntegrator._calculate_multi_store_confidence_level`
  (`integrate_shopify_scraper.py`, lines 382-397);
* `ShopifyIntegrator._calculate_confidence_level` (lines 515-527);
* `CustomerSiteIntegrator._calculate_confidence_level`
  (`integrate_customer_scraper.py`, lines 234-244).
The float success rate is modelled in `ℚ`. -/

/-- The ordinal scale `very_low < low < medium < high` the spec states for
confidence levels, as a rank on the strings the code returns. -/
def confidenceRank (level : String) : Nat :=
  if level = "very_low" then 0
  else if level = "low" then 1
  else if level = "medium" then 2
  else if level = "high" then 3
  else 0

/-- Model of `success_rate = successful_scrapes / stores_scraped if total_stores > 0
else 0` (line 388). -/
def multiStoreSuccessRate (successfulScrapes storesScraped : Nat) : ℚ :=
  if storesScraped > 0 then (successfulScrapes : ℚ) / storesScraped else 0

/-- Model of `_calculate_multi_store_confidence_level`: thresholds 50/0.8, 20/0.6, 10
on the combined total and per-store success rate. -/
def multiStoreConfidenceLevel (totalReviews successfulScrapes
    storesScraped : Nat) : String :=
  if totalReviews ≥ 50 ∧ multiStoreSuccessRate successfulScrapes storesScraped ≥ 4/5
    then "high"
  else if totalReviews ≥ 20 ∧ multiStoreSuccessRate successfulScrapes storesScraped ≥ 3/5
    then "medium"
  else if totalReviews ≥ 10 then "low"
  else "very_low"

/-- Model of `ShopifyIntegrator._calculate_confidence_level`: single-store cascade on
`total_reviews` and `scrape_method`. -/
def shopifySingleConfidenceLevel (reviewCount : Nat) (method : String) : String :=
  if reviewCount ≥ 20 ∧ (method = "judge.me_api" ∨ method = "yotpo_api") then "high"
  else if reviewCount ≥ 20 ∨ method = "selenium" then "medium"
  else if reviewCount ≥ 10 then "low"
  else "very_low"

/-- Model of `CustomerSiteIntegrator._calculate_confidence_level`: cascade on
`total_reviews` and `pages_scraped`; note its bottom value is `"low"`, not
`"very_low"`. -/
def customerSiteConfidenceLevel (reviewCount pagesScraped : Nat) : String :=
  if reviewCount ≥ 20 ∧ pagesScraped > 1 then "high"
  else if reviewCount ≥ 10 ∨ pagesScraped > 0 then "medium"
  else "low"

theorem multi_cascade_mono (P1 P2 : Prop) [Decidable P1] [Decidable P2]
    (t1 t2 : Nat) (h : t1 ≤ t2) :
    confidenceRank (if t1 ≥ 50 ∧ P1 then "high"
        else if t1 ≥ 20 ∧ P2 then "medium"
        else if t1 ≥ 10 then "low" else "very_low") ≤
      confidenceRank (if t2 ≥ 50 ∧ P1 then "high"
        else if t2 ≥ 20 ∧ P2 then "medium"
        else if t2 ≥ 10 then "low" else "very_low") := by
  by_cases h1 : P1 <;> by_cases h2 : P2 <;>
    simp only [h1, h2, and_true, and_false, if_false] <;>
      split_ifs <;> first | decide | omega

theorem single_cascade_mono (P1 P2 : Prop) [Decidable P1] [Decidable P2]
    (t1 t2 : Nat) (h : t1 ≤ t2) :
    confidenceRank (if t1 ≥ 20 ∧ P1 then "high"
        else if t1 ≥ 20 ∨ P2 then "medium"
        else if t1 ≥ 10 then "low" else "very_low") ≤
      confidenceRank (if t2 ≥ 20 ∧ P1 then "high"
        else if t2 ≥ 20 ∨ P2 then "medium"
        else if t2 ≥ 10 then "low" else "very_low") := by
  by_cases h1 : P1 <;> by_cases h2 : P2 <;>
    simp only [h1, h2, and_true, and_false, or_true, or_false, if_false] <;>
      split_ifs <;> first | decide | omega

theorem customer_cascade_mono (P1 P2 : Prop) [Decidable P1] [Decidable P2]
    (t1 t2 : Nat) (h : t1 ≤ t2) :
    confidenceRank (if t1 ≥ 20 ∧ P1 then "high"
        else if t1 ≥ 10 ∨ P2 then "medium" else "low") ≤
      confidenceRank (if t2 ≥ 20 ∧ P1 then "high"
        else if t2 ≥ 10 ∨ P2 then "medium" else "low") := by
  by_cases h1 : P1 <;> by_cases h2 : P2 <;>
    simp only [h1, h2, and_true, and_false, or_true, or_false, if_false] <;>
      split_ifs <;> first | decide | omega

/-- C6: for each of the three confidence cascades, holding the other inputs
fixed (success-scrape counts for the multi-store variant, the extraction
method for the Shopify single-store variant, the pages-scraped count for the
customer-site variant), a larger `total_reviews` never yields a lower level
on the ordinal scale `very_low < low < medium < high`. -/
theorem confidence_monotonicity :
    (∀ t1 t2 s k : Nat, t1 ≤ t2 →
      confidenceRank (multiStoreConfidenceLevel t1 s k) ≤
        confidenceRank (multiStoreConfidenceLevel t2 s k)) ∧
    (∀ t1 t2 : Nat, ∀ method : String, t1 ≤ t2 →
      confidenceRank (shopifySingleConfidenceLevel t1 method) ≤
        confidenceRank (shopifySingleConfidenceLevel t2 method)) ∧
    (∀ t1 t2 p : Nat, t1 ≤ t2 →
      confidenceRank (customerSiteConfidenceLevel t1 p) ≤
        confidenceRank (customerSiteConfidenceLevel t2 p)) := by
  refine ⟨fun t1 t2 s k h => ?_, fun t1 t2 method h => ?_, fun t1 t2 p h => ?_⟩
  · unfold multiStoreConfidenceLevel
    exact multi_cascade_mono _ _ t1 t2 h
  · unfold shopifySingleConfidenceLevel
    exact single_cascade_mono _ _ t1 t2 h
  · unfold customerSiteConfidenceLevel
    exact customer_cascade_mono _ _ t1 t2 h

/-- Witness for `confidence_monotonicity`: multi-store totals 15 and 60 with
2 of 2 stores succeeding. -/
theorem confidence_monotonicity_witness :
    confidenceRank (multiStoreConfidenceLevel 15 2 2) ≤
      confidenceRank (multiStoreConfidenceLevel 60 2 2) :=
  confidence_monotonicity.1 15 60 2 2 (by decide)

/-- C7 counterexample: the claim "total_reviews < 10 implies confidence
very_low" fails on the cited single-store cascades.  With zero reviews and
the Selenium fallback method (exactly the "every adapter failed" run) the
Shopify single-store cascade returns `medium`, and the customer-site cascade
returns `low` with nothing scraped (`medium` once a page was scraped);
neither is `very_low`. -/
theorem confidence_floor_counterexample :
    shopifySingleConfidenceLevel 0 "selenium" = "medium" ∧
      customerSiteConfidenceLevel 0 0 = "low" ∧
      customerSiteConfidenceLevel 0 1 = "medium" := by
  refine ⟨?_, ?_, ?_⟩ <;> decide

/-- C7 amended: the `< 10 → very_low` floor holds for the multi-store cascade
for every success ratio, and for the Shopify single-store cascade whenever
the method is not the Selenium fallback; the customer-site cascade never
returns `very_low` at all. -/
theorem confidence_floor_amended :
    (∀ t s k : Nat, t < 10 → multiStoreConfidenceLevel t s k = "very_low") ∧
    (∀ t : Nat, ∀ method : String, t < 10 → method ≠ "selenium" →
      shopifySingleConfidenceLevel t method = "very_low") ∧
    (∀ t p : Nat, customerSiteConfidenceLevel t p ≠ "very_low") := by
  refine ⟨fun t s k ht => ?_, fun t method ht hm => ?_, fun t p => ?_⟩
  · have h1 : ¬(t ≥ 50 ∧ multiStoreSuccessRate s k ≥ 4/5) :=
      fun hc => absurd hc.1 (by omega)
    have h2 : ¬(t ≥ 20 ∧ multiStoreSuccessRate s k ≥ 3/5) :=
      fun hc => absurd hc.1 (by omega)
    have h3 : ¬(t ≥ 10) := by omega
    unfold multiStoreConfidenceLevel
    rw [if_neg h1, if_neg h2, if_neg h3]
  · have h1 : ¬(t ≥ 20 ∧ (method = "judge.me_api" ∨ method = "yotpo_api")) :=
      fun hc => absurd hc.1 (by omega)
    have h2 : ¬(t ≥ 20 ∨ method = "selenium") := by
      rintro (hc | hc)
      · omega
      · exact hm hc
    have h3 : ¬(t ≥ 10) := by omega
    unfold shopifySingleConfidenceLevel
    rw [if_neg h1, if_neg h2, if_neg h3]
  · unfold customerSiteConfidenceLevel
    split_ifs <;> decide

/-- Witness for `confidence_floor_amended`: a fully failed multi-store run
(0 reviews) is reported `very_low`, and a 5-review Judge.me single-store run
is reported `very_low`. -/
theorem confidence_floor_amended_witness :
    multiStoreConfidenceLevel 0 0 1 = "very_low" ∧
      shopifySingleConfidenceLevel 5 "judge.me_api" = "very_low" :=
  ⟨confidence_floor_amended.1 0 0 1 (by decide),
    confidence_floor_amended.2.1 5 "judge.me_api" (by decide) (by decide)⟩

/-! ## Verification rate

`ShopifyIntegrator._calculate_verified_rate`
(`integrate_shopify_scraper.py`, lines 440-446) and the hard-coded
`"verification_rate": 0.0` of
`CustomerSiteIntegrator.convert_to_foundation_format`
(`integrate_customer_scraper.py`, lines 140-149).  A report field that a
Python dict holds is modelled as `some v`; an absent key as `none`. -/

/-- Model of `_calculate_verified_rate`: `0.0` for an empty list, otherwise the count
of records whose `verified` field is truthy divided by the length. -/
def calculateVerifiedRate {α : Type} (verifiedOf : α → Bool)
    (reviews : List α) : ℚ :=
  if reviews.isEmpty then 0
  else (reviews.countP verifiedOf : ℚ) / reviews.length

/-- Modelled from the spec (§4.3): the arithmetic mean of the boolean
`verified` field cast to `{0, 1}` over the reviews. -/
def specVerifiedMean {α : Type} (verifiedOf : α → Bool)
    (reviews : List α) : ℚ :=
  (reviews.map (fun r => if verifiedOf r then (1 : ℚ) else 0)).sum /
    reviews.length

/-- Model of `CustomerSiteIntegrator.convert_to_foundation_format` line 148: the
customer-site report always carries the key `verification_rate` with value
`0.0` (the code comment reads "Customer site reviews are not verified"). -/
def customerFoundationVerificationRate : Option ℚ := some 0

/-- Lines 81-96 of `integrate_customer_scraper.py`: every converted
customer-site review gets `verified = False` hard-coded. -/
def customerConvertVerified {α : Type} (reviews : List α) : List (α × Bool) :=
  reviews.map (fun r => (r, false))

theorem countP_cast_eq_sum {α : Type} (verifiedOf : α → Bool) :
    ∀ reviews : List α,
      ((reviews.countP verifiedOf : ℚ)) =
        (reviews.map (fun r => if verifiedOf r then (1 : ℚ) else 0)).sum := by
  intro reviews
  induction reviews with
  | nil => simp
  | cons r rs ih =>
    by_cases hr : verifiedOf r
    · simp [List.countP_cons, hr, ih]
      ring
    · simp [List.countP_cons, hr, ih]

/-- C8 counterexample: the customer-site integrator emits
`verification_rate = 0.0` (the key is present, not `None`/absent) even though
it simultaneously hard-codes every review as unverified because the source
has no verification semantics; the claim requires absence there, and absence
to be distinct from a rate of 0. -/
theorem verification_rate_counterexample :
    customerFoundationVerificationRate = some 0 ∧
      customerFoundationVerificationRate ≠ none ∧
      customerConvertVerified ["great sheets"] = [("great sheets", false)] := by
  refine ⟨rfl, by simp [customerFoundationVerificationRate], rfl⟩

/-- C8 amended: for a nonempty review list the Shopify integrators'
`verification_rate` equals the arithmetic mean of `verified` cast to `{0,1}`
and lies in `[0,1]`; for an empty list it is `0.0`; and the customer-site
integrator always reports the value `0.0` (never `None`), with every one of
its reviews hard-coded unverified. -/
theorem verification_rate_amended {α : Type} (verifiedOf : α → Bool)
    (reviews : List α) (h : reviews ≠ []) :
    calculateVerifiedRate verifiedOf reviews =
        specVerifiedMean verifiedOf reviews ∧
      0 ≤ calculateVerifiedRate verifiedOf reviews ∧
      calculateVerifiedRate verifiedOf reviews ≤ 1 ∧
      calculateVerifiedRate verifiedOf ([] : List α) = 0 ∧
      customerFoundationVerificationRate = some 0 ∧
      ∀ p ∈ customerConvertVerified reviews, p.2 = false := by
  have hne : reviews.isEmpty = false := by
    cases reviews with
    | nil => exact absurd rfl h
    | cons r rs => rfl
  have hlen : 0 < reviews.length := List.length_pos.mpr h
  have hrate : calculateVerifiedRate verifiedOf reviews =
      (reviews.countP verifiedOf : ℚ) / reviews.length := by
    simp [calculateVerifiedRate, hne]
  refine ⟨?_, ?_, ?_, rfl, rfl, ?_⟩
  · rw [hrate, specVerifiedMean, countP_cast_eq_sum]
  · rw [hrate]
    positivity
  · rw [hrate]
    rw [div_le_one (by positivity)]
    exact_mod_cast List.countP_le_length verifiedOf
  · intro p hp
    simp only [customerConvertVerified, List.mem_map] at hp
    obtain ⟨r, _, hr⟩ := hp
    rw [← hr]

/-- Witness for `verification_rate_amended`: two reviews, one verified. -/
theorem verification_rate_amended_witness :
    calculateVerifiedRate id [true, false] = specVerifiedMean id [true, false] ∧
      0 ≤ calculateVerifiedRate id [true, false] ∧
      calculateVerifiedRate id [true, false] ≤ 1 ∧
      calculateVerifiedRate id ([] : List Bool) = 0 ∧
      customerFoundationVerificationRate = some 0 ∧
      ∀ p ∈ customerConvertVerified [true, false], p.2 = false :=
  verification_rate_amended id [true, false] (by decide)

end BildurPersona
